import Mathlib

/-!
Shallow embedding of `app.py` from `dcermak/rpm-container-registry`.

The program is an HTTP registry front-end over two external collaborators:
the rpm package database (queried through a command runner) and the
filesystem holding OCI image layouts.  Both collaborators are modelled as
a `RegistryState` record of query functions:

* `whatprovides cap` models `rpm -q --whatprovides '<cap>'`: `none` is a
  non-zero exit status, `some lines` is a zero exit status with the given
  stdout lines (Python `stdout.splitlines()` is modelled by keeping stdout
  as its list of lines).
* `queryProvides pkg` models the stdout lines of `rpm -qP <pkg>`.
* `queryNameArch pkg` models the raw stdout of
  `rpm -q --qf "%{name} %{arch}" <pkg>`.
* `queryName pkg` models the raw stdout of `rpm -q --qf "%{name}" <pkg>`.
* `queryFiles pkg` models the stdout lines of `rpm -ql <pkg>`.
* `pathExists` models `os.path.exists`.
* `readIndexJson` / `readOciManifest` / `readOciConfig` model opening a
  path and parsing its JSON into the corresponding pydantic model
  (`none` = missing or malformed file, which raises in Python).
* `sha256OfPath` assigns to each path the sha256 digest of its content;
  the program never calls it, it exists so that content-addressing
  properties can be stated.

Python `set(...)` of stdout lines is modelled by `List.dedup` (the claims
never depend on iteration order).  Python exceptions are modelled by
`Except RegError`.
-/

/-! ### Python string methods

The source uses `str.split`, `str.strip`, `str.startswith`, `str.endswith`
and `str.replace`.  They are modelled structurally over `String.data` so that
the kernel can evaluate them on concrete inputs (the core `String` versions
use well-founded recursion).  Every separator the program splits on is a
single character. -/

/-- Python `str.split(sep)` on a character list: `"".split(sep) == [""]`,
`"a=b".split("=") == ["a", "b"]`. -/
def splitChar (sep : Char) : List Char → List (List Char)
  | [] => [[]]
  | c :: rest =>
    if c = sep then [] :: splitChar sep rest
    else
      match splitChar sep rest with
      | [] => [[c]]
      | h :: t => (c :: h) :: t

/-- Python `s.split(sep)` for a single-character separator. -/
def pySplit (s : String) (sep : Char) : List String :=
  (splitChar sep s.data).map String.mk

/-- Python `s.strip()`: remove leading and trailing whitespace. -/
def pyStrip (s : String) : String :=
  ⟨((s.data.dropWhile Char.isWhitespace).reverse.dropWhile Char.isWhitespace).reverse⟩

/-- Python `s.startswith(pre)`. -/
def pyStartswith (s pre : String) : Bool := pre.data.isPrefixOf s.data

/-- Python `s.endswith(suf)`. -/
def pyEndswith (s suf : String) : Bool := suf.data.isSuffixOf s.data

/-- Worker for `pyReplace`, structurally recursive on a fuel argument that is
at least the length of the string (each step consumes at least one character
for the non-empty patterns the program uses). -/
def replaceFuel (pat repl : List Char) : Nat → List Char → List Char
  | _, [] => []
  | 0, s => s
  | fuel + 1, c :: rest =>
    if pat.isPrefixOf (c :: rest) then
      repl ++ replaceFuel pat repl fuel ((c :: rest).drop pat.length)
    else
      c :: replaceFuel pat repl fuel rest

/-- Python `s.replace(pat, repl)` (left-to-right, non-overlapping); the
program only ever replaces the non-empty pattern `"sha256:"`. -/
def pyReplace (s pat repl : String) : String :=
  ⟨replaceFuel pat.data repl.data s.data.length s.data⟩

/-- Constant `_OCI_BASE_PATH` from `app.py`. -/
def OCI_BASE_PATH : String := "/usr/share/suse-docker-images/oci/"

/-- Constant `_BLOBS_BASE_PATH = f"{_OCI_BASE_PATH}/blobs/sha256/"` (note the doubled slash,
kept exactly as the source produces it). -/
def BLOBS_BASE_PATH : String := OCI_BASE_PATH ++ "/blobs/sha256/"

def MANIFEST_LIST_V2_MEDIA_TYPE : String :=
  "application/vnd.docker.distribution.manifest.list.v2+json"

def MANIFEST_V2_MEDIA_TYPE : String :=
  "application/vnd.docker.distribution.manifest.v2+json"

def OCI_IMAGE_CONFIG_MEDIA_TYPE : String := "application/vnd.oci.image.config.v1+json"

def OCI_MANIFEST_MEDIA_TYPE : String := "application/vnd.oci.image.manifest.v1+json"

/-- Errors raised by the Python code: `HTTPException(status_code, detail)`,
the `ValueError` of `manifests_from_sha_digest` (carried structured: the digest
and the offending package set), and other runtime errors (unpacking failures,
`IndexError`, unreadable files). -/
inductive RegError where
  | http (status : Nat) (detail : String)
  | invalidPackageCount (digest : String) (pkgs : List String)
  | runtimeError (msg : String)
  deriving DecidableEq

/-- Model of `fastapi.responses.FileResponse(path, media_type)`. -/
structure FileResponse where
  path : String
  media_type : Option String
  deriving DecidableEq

structure TagReply where
  name : String
  tags : List String
  deriving DecidableEq

structure Platform where
  architecture : String
  os : String
  deriving DecidableEq

structure DockerManifest where
  mediaType : String := MANIFEST_V2_MEDIA_TYPE
  size : Int
  digest : String
  platform : Platform
  deriving DecidableEq

structure ManifestListV2Reply where
  manifests : List DockerManifest
  schemaVersion : Nat := 2
  mediaType : String := MANIFEST_LIST_V2_MEDIA_TYPE
  deriving DecidableEq

structure IndexJson.Manifest where
  mediaType : String := OCI_MANIFEST_MEDIA_TYPE
  digest : String
  size : Int
  deriving DecidableEq

structure IndexJson where
  schemaVersion : Nat := 2
  manifests : List IndexJson.Manifest
  deriving DecidableEq

structure ManifestV2Reply.Config where
  mediaType : String := "application/vnd.docker.container.image.v1+json"
  digest : String
  size : Int
  deriving DecidableEq

structure ManifestV2Reply.Layer where
  mediaType : String := "application/vnd.docker.image.rootfs.diff.tar.gzip"
  digest : String
  size : Int
  deriving DecidableEq

structure ManifestV2Reply where
  schemaVersion : Nat := 2
  mediaType : String := MANIFEST_V2_MEDIA_TYPE
  config : ManifestV2Reply.Config
  layers : List ManifestV2Reply.Layer
  deriving DecidableEq

structure OciManifest.Config where
  mediaType : String := OCI_IMAGE_CONFIG_MEDIA_TYPE
  digest : String
  size : Int
  deriving DecidableEq

structure OciManifest.Layer where
  mediaType : String := "application/vnd.oci.image.layer.v1.tar+gzip"
  digest : String
  size : Int
  deriving DecidableEq

structure OciManifest where
  schemaVersion : Nat := 2
  mediaType : String := OCI_MANIFEST_MEDIA_TYPE
  config : OciManifest.Config
  layers : List OciManifest.Layer
  deriving DecidableEq

/-- Model of `OciConfig`; its `config` and `rootfs` payloads are opaque to the program
(`Any` in the source) and never inspected, so they are not represented. -/
structure OciConfig where
  created : String
  architecture : String
  os : String
  deriving DecidableEq

/-- Method `OciManifest.to_docker_manifest` from `app.py`. -/
def OciManifest.to_docker_manifest (m : OciManifest) : ManifestV2Reply :=
  { config := { digest := m.config.digest, size := m.config.size },
    layers := m.layers.map fun layer => { digest := layer.digest, size := layer.size } }

/-- The external collaborators (rpm database and filesystem), see the module
doc comment. -/
structure RegistryState where
  whatprovides : String → Option (List String)
  queryProvides : String → List String
  queryNameArch : String → String
  queryName : String → String
  queryFiles : String → List String
  pathExists : String → Bool
  readIndexJson : String → Option IndexJson
  readOciManifest : String → Option OciManifest
  readOciConfig : String → Option OciConfig
  sha256OfPath : String → String

instance {e a : Type} [DecidableEq e] [DecidableEq a] : DecidableEq (Except e a) :=
  fun x y =>
    match x, y with
    | Except.ok u, Except.ok v =>
      if h : u = v then isTrue (by rw [h]) else isFalse (by intro hc; cases hc; exact h rfl)
    | Except.error u, Except.error v =>
      if h : u = v then isTrue (by rw [h]) else isFalse (by intro hc; cases hc; exact h rfl)
    | Except.ok _, Except.error _ => isFalse (by intro hc; cases hc)
    | Except.error _, Except.ok _ => isFalse (by intro hc; cases hc)

/-- Property `ChecksumMixin.checksum`: `self.digest.split(":")[1]`.  The Python
subscript raises `IndexError` when the digest holds no `:`. -/
def checksum (digest : String) : Except RegError String :=
  match (pySplit digest ':').get? 1 with
  | some c => Except.ok c
  | none => Except.error (.runtimeError "list index out of range")

/-- Function `read_in_oci_image` from `app.py`: parse `<base>/<name>/index.json`, follow
its first entry to the manifest blob and the manifest's config digest to the
config blob (`os.path.join` on the slash-terminated base path concatenates). -/
def read_in_oci_image (st : RegistryState) (image_name : String) :
    Except RegError (IndexJson × OciManifest × OciConfig) := do
  let index_json ←
    match st.readIndexJson (OCI_BASE_PATH ++ image_name ++ "/index.json") with
    | some ij => Except.ok ij
    | none => Except.error (.runtimeError ("cannot read index.json of " ++ image_name))
  let first ←
    match index_json.manifests with
    | m :: _ => Except.ok m
    | [] => Except.error (.runtimeError "list index out of range")
  let manifest_checksum ← checksum first.digest
  let manifest ←
    match st.readOciManifest
        (OCI_BASE_PATH ++ image_name ++ "/blobs/sha256/" ++ manifest_checksum) with
    | some m => Except.ok m
    | none => Except.error (.runtimeError ("cannot read manifest blob of " ++ image_name))
  let config_checksum ← checksum manifest.config.digest
  let config ←
    match st.readOciConfig
        (OCI_BASE_PATH ++ image_name ++ "/blobs/sha256/" ++ config_checksum) with
    | some c => Except.ok c
    | none => Except.error (.runtimeError ("cannot read config blob of " ++ image_name))
  return (index_json, manifest, config)

/-- Inner loop of the tag filter in `package_names_from_rpm`: scan one
package's provides lines for `oci_image(<name>) = <tag>`.  Lines without `=`
are skipped; a line with two or more `=` makes the 2-tuple unpacking
(`capability, version = provides.split("=")`) raise. -/
def capability_tag_match (oci_img_provide img_tag : String) :
    List String → Except RegError Bool
  | [] => Except.ok false
  | provides :: rest =>
    match pySplit provides '=' with
    | [_] => capability_tag_match oci_img_provide img_tag rest
    | [capability, version] =>
      if pyStrip capability = oci_img_provide ∧ pyStrip version = img_tag then Except.ok true
      else capability_tag_match oci_img_provide img_tag rest
    | _ => Except.error (.runtimeError "too many values to unpack")

/-- The `for pkg in pkgs` loop of `package_names_from_rpm`: keep the packages
whose provides list carries the requested tag. -/
def filter_pkgs_by_tag (st : RegistryState) (oci_img_provide img_tag : String) :
    List String → Except RegError (List String)
  | [] => Except.ok []
  | pkg :: rest => do
    let found ← capability_tag_match oci_img_provide img_tag (st.queryProvides pkg)
    let res ← filter_pkgs_by_tag st oci_img_provide img_tag rest
    if found then return pkg :: res else return res

/-- Function `package_names_from_rpm` from `app.py`: `none` when the whatprovides query
exits non-zero, otherwise the (deduplicated) providing packages, filtered by
tag when one is given. -/
def package_names_from_rpm (st : RegistryState) (image_name : String)
    (img_tag : Option String) : Except RegError (Option (List String)) :=
  match st.whatprovides ("oci_image(" ++ image_name ++ ")") with
  | none => Except.ok none
  | some out_lines =>
    let pkgs := out_lines.dedup
    match img_tag with
    | none => Except.ok (some pkgs)
    | some tag => do
      let res ← filter_pkgs_by_tag st ("oci_image(" ++ image_name ++ ")") tag pkgs
      return some res

/-- Endpoint `check_manifest_exists` (`HEAD /v2/{name}/manifests/{reference}`): always
answers the empty JSON object (modelled as an empty association list). -/
def check_manifest_exists ( _name _reference : String) :
    Except RegError (List (String × String)) :=
  Except.ok []

/-- The provides-line scan of `send_tag_list`: keep `<version>.strip()` from
every line of shape `<capability> = <version>` (exactly one `=`, checked by
`len(tmp := prov.split("=")) == 2`) whose capability is `oci_image(<name>)`. -/
def tag_entries (oci_img_provide : String) (prov_lines : List String) : List String :=
  prov_lines.filterMap fun prov =>
    match pySplit prov '=' with
    | [c, v] => if pyStrip c = oci_img_provide then some (pyStrip v) else none
    | _ => none

/-- Endpoint `send_tag_list` (`GET /v2/{name}/tags/list`): 404 when
`package_names_from_rpm` gives `None` or an empty list, otherwise collect the
tags of all providing packages. -/
def send_tag_list (st : RegistryState) (name : String) : Except RegError TagReply := do
  let packages ← package_names_from_rpm st name none
  match packages with
  | none => Except.error (.http 404 ("Image " ++ name ++ " not found"))
  | some pkg_list =>
    if pkg_list = [] then Except.error (.http 404 ("Image " ++ name ++ " not found"))
    else
      return { name := name,
               tags := (pkg_list.map fun pkg =>
                 tag_entries ("oci_image(" ++ name ++ ")") (st.queryProvides pkg)).flatten }

/-- The first half of `send_digest`: when `rpm -q --whatprovides
'oci_config(<digest>)'` succeeds with exactly one (deduplicated) package and
one of its files ends with `digest.replace("sha256:", "")`, that file is the
config blob.  `none` in every other case (the source then falls through). -/
def config_blob_response (st : RegistryState) (digest : String) : Option FileResponse :=
  match st.whatprovides ("oci_config(" ++ digest ++ ")") with
  | none => none
  | some out_lines =>
    match out_lines.dedup with
    | [pkg] =>
      match (st.queryFiles pkg).find?
          (fun fname => pyEndswith fname (pyReplace digest "sha256:" "")) with
      | some fname => some { path := fname, media_type := some OCI_IMAGE_CONFIG_MEDIA_TYPE }
      | none => none
    | _ => none

/-- The reference with its `sha256:` prefix stripped (the source only strips
when the prefix is present, and `str.replace` removes every occurrence). -/
def stripped_digest (digest : String) : String :=
  if pyStartswith digest "sha256:" then pyReplace digest "sha256:" "" else digest

/-- Endpoint `send_digest` (`GET /v2/{name}/blobs/{digest}`): try the config-blob
branch, else serve the file from the shared blob store, else 404.  The `name`
path parameter is never used by the body. -/
def send_digest (st : RegistryState) ( _name digest : String) :
    Except RegError FileResponse :=
  match config_blob_response st digest with
  | some resp => Except.ok resp
  | none =>
    if st.pathExists (BLOBS_BASE_PATH ++ stripped_digest digest) then
      Except.ok { path := BLOBS_BASE_PATH ++ stripped_digest digest, media_type := none }
    else
      Except.error (.http 404 ("Digest " ++ stripped_digest digest ++ " not found"))

/-- The per-package body shared by `manifests_from_name` and the tag branch of
`read_manifest`: unpack `"%{name} %{arch}"`, normalize `x86_64` to `amd64`,
read the package's OCI layout and wrap EVERY entry of its index document. -/
def docker_manifests_for_pkg (st : RegistryState) (pkg : String) :
    Except RegError (List DockerManifest) := do
  match pySplit (st.queryNameArch pkg) ' ' with
  | [pkg_name, arch0] =>
    let arch := if arch0 = "x86_64" then "amd64" else arch0
    let (index_json, _, _) ← read_in_oci_image st pkg_name
    return index_json.manifests.map fun manifest =>
      { size := manifest.size, digest := manifest.digest,
        platform := { architecture := arch, os := "linux" } }
  | _ => Except.error (.runtimeError "unpacking %\x7bname\x7d %\x7barch\x7d failed")

/-- The `for pkg in pkgs` aggregation loop (`manifests.extend(...)`). -/
def docker_manifests_for_pkgs (st : RegistryState) :
    List String → Except RegError (List DockerManifest)
  | [] => Except.ok []
  | pkg :: rest => do
    let ms ← docker_manifests_for_pkg st pkg
    let rest_ms ← docker_manifests_for_pkgs st rest
    return ms ++ rest_ms

/-- Function `manifests_from_name` from `app.py`. -/
def manifests_from_name (st : RegistryState) (name tag : String) :
    Except RegError (List DockerManifest) := do
  let pkgs ← package_names_from_rpm st name (some tag)
  match pkgs with
  | none => Except.error (.http 404 ("Image " ++ name ++ ":" ++ tag ++ " not found"))
  | some pkg_list =>
    if pkg_list = [] then
      Except.error (.http 404 ("Image " ++ name ++ ":" ++ tag ++ " not found"))
    else docker_manifests_for_pkgs st pkg_list

/-- Function `manifests_from_sha_digest` from `app.py`: `none` when the whatprovides
query exits non-zero; `ValueError` unless exactly one (deduplicated) package
provides `oci_manifest(<digest>)`; otherwise read that package's layout and
return the manifest blob. -/
def manifests_from_sha_digest (st : RegistryState) (digest : String) :
    Except RegError (Option OciManifest) :=
  match st.whatprovides ("oci_manifest(" ++ digest ++ ")") with
  | none => Except.ok none
  | some out_lines =>
    let pkgs := out_lines.dedup
    if pkgs = [] ∨ pkgs.length ≠ 1 then
      Except.error (.invalidPackageCount digest pkgs)
    else
      match pkgs with
      | pkg_rpm_name :: _ => do
        let pkg_name := pyStrip (st.queryName pkg_rpm_name)
        let (_, manifest, _) ← read_in_oci_image st pkg_name
        return some manifest
      | [] => Except.error (.runtimeError "unreachable")

/-- The two response shapes of `read_manifest`: a single manifest served with
its own media type, or a manifest list. -/
inductive ManifestResponse where
  | single (content : OciManifest) (media_type : String)
  | list (content : ManifestListV2Reply) (media_type : String)
  deriving DecidableEq

/-- Endpoint `read_manifest` (`GET /v2/{name}/manifests/{reference}`): digest branch
when the reference starts with `sha256:` (404 when `manifests_from_sha_digest`
yields `None`), otherwise the tag branch, which inlines the same loop as
`manifests_from_name` and wraps the result as a manifest list. -/
def read_manifest (st : RegistryState) (name reference : String) :
    Except RegError ManifestResponse := do
  if pyStartswith reference "sha256:" then
    let manifest_opt ← manifests_from_sha_digest st reference
    match manifest_opt with
    | none => Except.error (.http 404 ("digest " ++ reference ++ " not found"))
    | some manifest => return ManifestResponse.single manifest manifest.mediaType
  else
    let pkgs ← package_names_from_rpm st name (some reference)
    match pkgs with
    | none =>
      Except.error (.http 404 ("Image " ++ name ++ ":" ++ reference ++ " not found"))
    | some pkg_list =>
      if pkg_list = [] then
        Except.error (.http 404 ("Image " ++ name ++ ":" ++ reference ++ " not found"))
      else do
        let manifests ← docker_manifests_for_pkgs st pkg_list
        return ManifestResponse.list { manifests := manifests } MANIFEST_LIST_V2_MEDIA_TYPE

/-- The spec's architecture normalization function. -/
def normalize_arch (arch : String) : String :=
  if arch = "x86_64" then "amd64" else arch

/-! ## Concrete registry states used by counterexamples and witnesses -/

/-- A state in which every rpm query fails or is empty and no file exists. -/
def emptyState : RegistryState where
  whatprovides := fun _ => none
  queryProvides := fun _ => []
  queryNameArch := fun _ => ""
  queryName := fun _ => ""
  queryFiles := fun _ => []
  pathExists := fun _ => false
  readIndexJson := fun _ => none
  readOciManifest := fun _ => none
  readOciConfig := fun _ => none
  sha256OfPath := fun _ => ""

/-- The whatprovides query for `oci_manifest(sha256:aa)` exits zero with an
empty stdout: zero providing packages, successful query. -/
def stZeroManifestPkgs : RegistryState :=
  { emptyState with
    whatprovides := fun cap => if cap = "oci_manifest(sha256:aa)" then some [] else none }

/-- Two distinct packages provide `oci_manifest(sha256:aa)`. -/
def stTwoManifestPkgs : RegistryState :=
  { emptyState with
    whatprovides := fun cap =>
      if cap = "oci_manifest(sha256:aa)" then some ["pkgA", "pkgB"] else none }

/-- An index document with two manifest entries. -/
def idxTwo : IndexJson :=
  { manifests :=
      [ { digest := "sha256:aaa", size := 7 },
        { digest := "sha256:bbb", size := 8 } ] }

def omTwo : OciManifest :=
  { config := { digest := "sha256:ccc", size := 3 }, layers := [] }

def cfgTwo : OciConfig := { created := "", architecture := "x86_64", os := "linux" }

/-- Exactly one package provides `oci_image(img)` with tag `1.0`; its OCI
layout's index document holds TWO manifest entries. -/
def stOnePkgTwoEntries : RegistryState :=
  { emptyState with
    whatprovides := fun cap => if cap = "oci_image(img)" then some ["pkgA"] else none,
    queryProvides := fun _ => ["oci_image(img) = 1.0"],
    queryNameArch := fun _ => "imgpkg x86_64",
    readIndexJson := fun p =>
      if p = OCI_BASE_PATH ++ "imgpkg/index.json" then some idxTwo else none,
    readOciManifest := fun p =>
      if p = OCI_BASE_PATH ++ "imgpkg/blobs/sha256/aaa" then some omTwo else none,
    readOciConfig := fun p =>
      if p = OCI_BASE_PATH ++ "imgpkg/blobs/sha256/ccc" then some cfgTwo else none }

/-- Like `stOnePkgTwoEntries` but the index document has exactly one entry. -/
def stOnePkgOneEntry : RegistryState :=
  { stOnePkgTwoEntries with
    readIndexJson := fun p =>
      if p = OCI_BASE_PATH ++ "imgpkg/index.json" then
        some { manifests := [ { digest := "sha256:aaa", size := 7 } ] }
      else none }

/-- The blob store holds a file under hex name `aa` whose actual content hash
is `sha256:bb` (nothing in the program prevents this). -/
def stWrongHashBlob : RegistryState :=
  { emptyState with
    pathExists := fun p => p = BLOBS_BASE_PATH ++ "aa",
    sha256OfPath := fun p => if p = BLOBS_BASE_PATH ++ "aa" then "sha256:bb" else "" }

/-- The blob store holds a file under hex name `aa` whose content hash really
is `sha256:aa`. -/
def stGoodHashBlob : RegistryState :=
  { emptyState with
    pathExists := fun p => p = BLOBS_BASE_PATH ++ "aa",
    sha256OfPath := fun p => if p = BLOBS_BASE_PATH ++ "aa" then "sha256:aa" else "" }

/-- Exactly one package provides `oci_config(sha256:aa)` and installs a file
whose name ends in the hex part `aa`. -/
def stConfigPkg : RegistryState :=
  { emptyState with
    whatprovides := fun cap =>
      if cap = "oci_config(sha256:aa)" then some ["pkgC"] else none,
    queryFiles := fun pkg =>
      if pkg = "pkgC" then ["/var/lib/thing.txt", "/var/lib/config-aa"] else [] }

/-- One package provides `oci_image(img)`; its provides list carries two
`oci_image(img) = <tag>` entries and an unrelated capability. -/
def stTagList : RegistryState :=
  { emptyState with
    whatprovides := fun cap => if cap = "oci_image(img)" then some ["pkgA"] else none,
    queryProvides := fun _ =>
      ["oci_image(img) = 1.0", "other(img) = 9", "oci_image(img) = latest", "junk"] }

/-! ## Helper lemmas -/

theorem except_bind_ok {α β : Type} (a : α) (f : α → Except RegError β) :
    (Except.ok a : Except RegError α) >>= f = f a := rfl

theorem except_bind_error {α β : Type} (e : RegError) (f : α → Except RegError β) :
    (Except.error e : Except RegError α) >>= f = Except.error e := rfl

theorem except_pure {α : Type} (a : α) :
    (pure a : Except RegError α) = Except.ok a := rfl

/-- Unfolding of the config-blob branch of `send_digest` when it hits. -/
theorem config_blob_response_eq_some (st : RegistryState) (digest : String)
    (lines : List String) (pkg fname : String)
    (hq : st.whatprovides ("oci_config(" ++ digest ++ ")") = some lines)
    (hd : lines.dedup = [pkg])
    (hf : (st.queryFiles pkg).find?
        (fun f => pyEndswith f (pyReplace digest "sha256:" "")) = some fname) :
    config_blob_response st digest =
      some { path := fname, media_type := some OCI_IMAGE_CONFIG_MEDIA_TYPE } := by
  simp only [config_blob_response, hq, hd, hf]

/-- Inversion of the config-blob branch: a hit is a file of the unique
providing package whose name ends with the digest's hex part. -/
theorem config_blob_response_inv (st : RegistryState) (digest : String) (r : FileResponse)
    (h : config_blob_response st digest = some r) :
    ∃ pkg, r.path ∈ st.queryFiles pkg ∧
      pyEndswith r.path (pyReplace digest "sha256:" "") = true ∧
      r.media_type = some OCI_IMAGE_CONFIG_MEDIA_TYPE := by
  unfold config_blob_response at h
  split at h
  · cases h
  · split at h
    · split at h
      · rename_i pkg hd x fname hf
        cases h
        have hp := List.find?_some hf
        exact ⟨pkg, List.mem_of_find?_eq_some hf, hp, rfl⟩
      · cases h
    · cases h

/-! ## Claims -/

/-- Claim C7: converting an OCI manifest to the legacy Docker manifest shape
only re-tags media types — the config's digest and size, the number of layers,
and each layer's digest and size in order are preserved exactly. -/
theorem claim_C7_conversion_lossless (m : OciManifest) :
    m.to_docker_manifest.config.digest = m.config.digest ∧
    m.to_docker_manifest.config.size = m.config.size ∧
    m.to_docker_manifest.layers.length = m.layers.length ∧
    m.to_docker_manifest.layers.map (fun l => (l.digest, l.size)) =
      m.layers.map (fun l => (l.digest, l.size)) ∧
    m.to_docker_manifest.config.mediaType =
      "application/vnd.docker.container.image.v1+json" ∧
    m.to_docker_manifest.layers.map (fun l => l.mediaType) =
      List.replicate m.layers.length
        "application/vnd.docker.image.rootfs.diff.tar.gzip" := by
  refine ⟨rfl, rfl, ?_, ?_, rfl, ?_⟩
  · simp [OciManifest.to_docker_manifest]
  · simp [OciManifest.to_docker_manifest, List.map_map]
  · simp only [OciManifest.to_docker_manifest, List.map_map]
    induction m.layers with
    | nil => rfl
    | cons l ls ih => simpa [List.replicate_succ] using ih

/-- Claim C9: the HEAD manifest-existence endpoint returns a successful empty
object for every name and reference; it never returns not-found. -/
theorem claim_C9_head_always_ok (name reference : String) :
    check_manifest_exists name reference = Except.ok [] := rfl

/-- Claim C10: the blob-fetch endpoint's result depends only on the digest;
two requests with the same digest and different names get identical
responses. -/
theorem claim_C10_blob_ignores_name (st : RegistryState) (name1 name2 digest : String) :
    send_digest st name1 digest = send_digest st name2 digest := rfl

/-- Claim C1 counterexample: with the `oci_manifest(sha256:aa)` provider query
succeeding with zero packages, resolution does NOT fall through to an
index-document-by-hash stage (none exists in the code): it raises the
`ValueError` hard fault at once, which is neither a fall-through nor a
not-found. -/
theorem claim_C1_counterexample :
    stZeroManifestPkgs.whatprovides "oci_manifest(sha256:aa)" = some [] ∧
    read_manifest stZeroManifestPkgs "img" "sha256:aa" =
      Except.error (RegError.invalidPackageCount "sha256:aa" []) := by
  exact ⟨rfl, by decide⟩

/-- Claim C1 (amended): for a `sha256:` reference, when the
`oci_manifest(digest)` provider query succeeds but yields zero packages,
resolution fails immediately with the hard `ValueError` fault (there is no
index-document-by-hash stage); not-found is returned exactly when the
provider query itself fails. -/
theorem claim_C1_zero_provider_fault (st : RegistryState) (name digest : String)
    (hsw : pyStartswith digest "sha256:" = true) :
    (∀ lines, st.whatprovides ("oci_manifest(" ++ digest ++ ")") = some lines →
      lines.dedup = [] →
      read_manifest st name digest =
        Except.error (RegError.invalidPackageCount digest [])) ∧
    (st.whatprovides ("oci_manifest(" ++ digest ++ ")") = none →
      read_manifest st name digest =
        Except.error (RegError.http 404 ("digest " ++ digest ++ " not found"))) := by
  constructor
  · intro lines hq hd
    simp only [read_manifest, hsw, if_true, manifests_from_sha_digest, hq, hd]
    simp [except_bind_error]
  · intro hq
    simp only [read_manifest, hsw, if_true, manifests_from_sha_digest, hq]
    simp [except_bind_ok]

/-- Witness for claim C1's amended theorem at a concrete state. -/
theorem claim_C1_witness :
    read_manifest stZeroManifestPkgs "img2" "sha256:aa" =
      Except.error (RegError.invalidPackageCount "sha256:aa" []) :=
  (claim_C1_zero_provider_fault stZeroManifestPkgs "img2" "sha256:aa" (by decide)).1
    [] (by decide) (by decide)

/-- Claim C3: a digest-based manifest request whose `oci_manifest(digest)`
provider query returns two or more packages fails with the ambiguous-reference
hard fault (the `ValueError`, distinct from the 404 not-found) and never
silently picks one of the packages. -/
theorem claim_C3_ambiguous_fault (st : RegistryState) (name digest : String)
    (lines : List String)
    (hq : st.whatprovides ("oci_manifest(" ++ digest ++ ")") = some lines)
    (hlen : 2 ≤ lines.dedup.length)
    (hsw : pyStartswith digest "sha256:" = true) :
    manifests_from_sha_digest st digest =
      Except.error (RegError.invalidPackageCount digest lines.dedup) ∧
    read_manifest st name digest =
      Except.error (RegError.invalidPackageCount digest lines.dedup) := by
  have hcond : lines.dedup = [] ∨ lines.dedup.length ≠ 1 := Or.inr (by omega)
  have h1 : manifests_from_sha_digest st digest =
      Except.error (RegError.invalidPackageCount digest lines.dedup) := by
    simp only [manifests_from_sha_digest, hq]
    rw [if_pos hcond]
  refine ⟨h1, ?_⟩
  simp only [read_manifest, hsw, if_true, h1]
  simp [except_bind_error]

/-- Witness for claim C3 at a concrete state with two providing packages. -/
theorem claim_C3_witness :
    manifests_from_sha_digest stTwoManifestPkgs "sha256:aa" =
      Except.error (RegError.invalidPackageCount "sha256:aa" ["pkgA", "pkgB"]) ∧
    read_manifest stTwoManifestPkgs "img" "sha256:aa" =
      Except.error (RegError.invalidPackageCount "sha256:aa" ["pkgA", "pkgB"]) :=
  claim_C3_ambiguous_fault stTwoManifestPkgs "img" "sha256:aa" ["pkgA", "pkgB"]
    (by decide) (by decide) (by decide)

/-- Claim C2 counterexample: `stOnePkgTwoEntries` has exactly ONE package
providing `oci_image(img) = 1.0`, but because its index document has two
entries and the loop wraps EVERY entry (not only the first), the returned
manifest list has TWO entries, not exactly one. -/
theorem claim_C2_counterexample :
    package_names_from_rpm stOnePkgTwoEntries "img" (some "1.0") =
      Except.ok (some ["pkgA"]) ∧
    read_manifest stOnePkgTwoEntries "img" "1.0" =
      Except.ok (ManifestResponse.list { manifests :=
        [ { size := 7, digest := "sha256:aaa",
            platform := { architecture := "amd64", os := "linux" } },
          { size := 8, digest := "sha256:bbb",
            platform := { architecture := "amd64", os := "linux" } } ] }
        MANIFEST_LIST_V2_MEDIA_TYPE) ∧
    manifests_from_name stOnePkgTwoEntries "img" "1.0" =
      Except.ok
        [ { size := 7, digest := "sha256:aaa",
            platform := { architecture := "amd64", os := "linux" } },
          { size := 8, digest := "sha256:bbb",
            platform := { architecture := "amd64", os := "linux" } } ] := by
  exact ⟨by decide, by decide, by decide⟩

/-- Claim C2 (amended): the resolver contributes one manifest-list entry per
entry of each matching package's index document (all entries, not only the
first); hence for a (name, tag) pair with exactly one providing package WHOSE
INDEX DOCUMENT HAS EXACTLY ONE ENTRY, the manifest list has exactly one entry
whose platform architecture is the normalized package architecture. -/
theorem claim_C2_single_package_single_entry (st : RegistryState)
    (name tag pkg pkg_name arch : String) (im : IndexJson.Manifest)
    (ij : IndexJson) (om : OciManifest) (cfg : OciConfig)
    (htag : pyStartswith tag "sha256:" = false)
    (hpkgs : package_names_from_rpm st name (some tag) = Except.ok (some [pkg]))
    (hna : pySplit (st.queryNameArch pkg) ' ' = [pkg_name, arch])
    (hread : read_in_oci_image st pkg_name = Except.ok (ij, om, cfg))
    (hone : ij.manifests = [im]) :
    ∃ e : DockerManifest,
      read_manifest st name tag =
        Except.ok (ManifestResponse.list { manifests := [e] }
          MANIFEST_LIST_V2_MEDIA_TYPE) ∧
      e.platform.architecture = normalize_arch arch := by
  refine ⟨{ size := im.size, digest := im.digest,
            platform := { architecture := normalize_arch arch, os := "linux" } },
          ?_, rfl⟩
  have hm : docker_manifests_for_pkg st pkg =
      Except.ok [ { size := im.size, digest := im.digest,
                    platform := { architecture := normalize_arch arch, os := "linux" } } ] := by
    simp only [docker_manifests_for_pkg, hna, hread, except_bind_ok, hone,
      List.map, except_pure, normalize_arch]
  simp only [read_manifest, htag, Bool.false_eq_true, if_false, hpkgs, except_bind_ok]
  simp only [List.cons_ne_self, if_false, docker_manifests_for_pkgs, hm, except_bind_ok,
    except_pure, List.append_nil]

/-- Witness for claim C2's amended theorem at a concrete state whose index
document has exactly one entry. -/
theorem claim_C2_witness :
    ∃ e : DockerManifest,
      read_manifest stOnePkgOneEntry "img" "1.0" =
        Except.ok (ManifestResponse.list { manifests := [e] }
          MANIFEST_LIST_V2_MEDIA_TYPE) ∧
      e.platform.architecture = normalize_arch "x86_64" :=
  claim_C2_single_package_single_entry stOnePkgOneEntry "img" "1.0" "pkgA" "imgpkg"
    "x86_64" { digest := "sha256:aaa", size := 7 }
    { manifests := [ { digest := "sha256:aaa", size := 7 } ] } omTwo cfgTwo
    (by decide) (by decide) (by decide) (by decide) (by decide)

/-- Entries produced for one package carry the normalized package
architecture. -/
theorem docker_manifests_for_pkg_arch (st : RegistryState) (pkg : String)
    (ms : List DockerManifest) (h : docker_manifests_for_pkg st pkg = Except.ok ms) :
    ∀ m ∈ ms, ∃ n a, pySplit (st.queryNameArch pkg) ' ' = [n, a] ∧
      m.platform.architecture = normalize_arch a := by
  intro m hm
  unfold docker_manifests_for_pkg at h
  split at h
  · rename_i n a hsp
    cases hread : read_in_oci_image st n <;> rw [hread] at h
    · rw [except_bind_error] at h; cases h
    · rename_i trip
      obtain ⟨ij, om, cfg⟩ := trip
      rw [except_bind_ok] at h
      simp only [except_pure, Except.ok.injEq] at h
      subst h
      obtain ⟨im, _, rfl⟩ := List.mem_map.mp hm
      exact ⟨n, a, hsp, rfl⟩
  · cases h

/-- The aggregation loop only emits entries with normalized architectures of
packages in the list. -/
theorem docker_manifests_for_pkgs_arch (st : RegistryState) :
    ∀ (pkgs : List String) (ms : List DockerManifest),
      docker_manifests_for_pkgs st pkgs = Except.ok ms →
      ∀ m ∈ ms, ∃ pkg, pkg ∈ pkgs ∧ ∃ n a,
        pySplit (st.queryNameArch pkg) ' ' = [n, a] ∧
        m.platform.architecture = normalize_arch a := by
  intro pkgs
  induction pkgs with
  | nil =>
    intro ms h m hm
    simp only [docker_manifests_for_pkgs, Except.ok.injEq] at h
    subst h
    cases hm
  | cons pkg rest ih =>
    intro ms h m hm
    simp only [docker_manifests_for_pkgs] at h
    cases h1 : docker_manifests_for_pkg st pkg <;> rw [h1] at h
    · rw [except_bind_error] at h; cases h
    · rename_i ms1
      rw [except_bind_ok] at h
      cases h2 : docker_manifests_for_pkgs st rest <;> rw [h2] at h
      · rw [except_bind_error] at h; cases h
      · rename_i ms2
        rw [except_bind_ok, except_pure] at h
        cases h
        rcases List.mem_append.mp hm with hmm | hmm
        · obtain ⟨n, a, hsp, ha⟩ := docker_manifests_for_pkg_arch st pkg ms1 h1 m hmm
          exact ⟨pkg, List.mem_cons_self pkg rest, n, a, hsp, ha⟩
        · obtain ⟨p, hp, n, a, hsp, ha⟩ := ih ms2 h2 m hmm
          exact ⟨p, List.mem_cons_of_mem pkg hp, n, a, hsp, ha⟩

/-- Every entry of a successful `manifests_from_name` has a normalized
package architecture. -/
theorem manifests_from_name_arch (st : RegistryState) (name tag : String)
    (ms : List DockerManifest) (h : manifests_from_name st name tag = Except.ok ms) :
    ∀ m ∈ ms, ∃ pkg n a, pySplit (st.queryNameArch pkg) ' ' = [n, a] ∧
      m.platform.architecture = normalize_arch a := by
  intro m hm
  cases hp : package_names_from_rpm st name (some tag) with
  | error e =>
    simp only [manifests_from_name, hp, except_bind_error] at h
    cases h
  | ok pkgs? =>
    cases pkgs? with
    | none =>
      simp only [manifests_from_name, hp, except_bind_ok] at h
      cases h
    | some pkg_list =>
      simp only [manifests_from_name, hp, except_bind_ok] at h
      by_cases hnil : pkg_list = []
      · rw [if_pos hnil] at h; cases h
      · rw [if_neg hnil] at h
        obtain ⟨pkg, _, n, a, hsp, ha⟩ :=
          docker_manifests_for_pkgs_arch st pkg_list ms h m hm
        exact ⟨pkg, n, a, hsp, ha⟩

/-- Every entry of a manifest list returned by `read_manifest` has a
normalized package architecture. -/
theorem read_manifest_list_arch (st : RegistryState) (name reference : String)
    (reply : ManifestListV2Reply) (mt : String)
    (h : read_manifest st name reference = Except.ok (ManifestResponse.list reply mt)) :
    ∀ m ∈ reply.manifests, ∃ pkg n a, pySplit (st.queryNameArch pkg) ' ' = [n, a] ∧
      m.platform.architecture = normalize_arch a := by
  intro m hm
  cases hsw : pyStartswith reference "sha256:"
  · cases hp : package_names_from_rpm st name (some reference) with
    | error e =>
      simp only [read_manifest, hsw, Bool.false_eq_true, if_false, hp,
        except_bind_error] at h
      cases h
    | ok pkgs? =>
      cases pkgs? with
      | none =>
        simp only [read_manifest, hsw, Bool.false_eq_true, if_false, hp,
          except_bind_ok] at h
        cases h
      | some pkg_list =>
        simp only [read_manifest, hsw, Bool.false_eq_true, if_false, hp,
          except_bind_ok] at h
        by_cases hnil : pkg_list = []
        · rw [if_pos hnil] at h; cases h
        · rw [if_neg hnil] at h
          cases hms : docker_manifests_for_pkgs st pkg_list <;> rw [hms] at h
          · rw [except_bind_error] at h; cases h
          · rename_i ms1
            rw [except_bind_ok, except_pure] at h
            cases h
            obtain ⟨pkg, _, n, a, hsp, ha⟩ :=
              docker_manifests_for_pkgs_arch st pkg_list ms1 hms m hm
            exact ⟨pkg, n, a, hsp, ha⟩
  · cases hms : manifests_from_sha_digest st reference with
    | error e =>
      simp only [read_manifest, hsw, if_true, hms, except_bind_error] at h
      cases h
    | ok man? =>
      cases man? with
      | none =>
        simp only [read_manifest, hsw, if_true, hms, except_bind_ok] at h
        cases h
      | some man =>
        simp only [read_manifest, hsw, if_true, hms, except_bind_ok, except_pure,
          Except.ok.injEq] at h
        cases h

/-- Claim C5: architecture normalization maps `x86_64` to `amd64` and every
other string to itself, and every manifest-list entry's
`platform.architecture` is the image of the package's raw architecture (the
second `%{arch}` field of the rpm query) under this function — both for
`manifests_from_name` and for every manifest list served by
`read_manifest`. -/
theorem claim_C5_architecture_normalization :
    normalize_arch "x86_64" = "amd64" ∧
    (∀ a, a ≠ "x86_64" → normalize_arch a = a) ∧
    (∀ (st : RegistryState) (name tag : String) (ms : List DockerManifest),
      manifests_from_name st name tag = Except.ok ms →
      ∀ m ∈ ms, ∃ pkg n a, pySplit (st.queryNameArch pkg) ' ' = [n, a] ∧
        m.platform.architecture = normalize_arch a) ∧
    (∀ (st : RegistryState) (name reference : String) (reply : ManifestListV2Reply)
      (mt : String),
      read_manifest st name reference = Except.ok (ManifestResponse.list reply mt) →
      ∀ m ∈ reply.manifests, ∃ pkg n a, pySplit (st.queryNameArch pkg) ' ' = [n, a] ∧
        m.platform.architecture = normalize_arch a) :=
  ⟨rfl, fun _ h => if_neg h, manifests_from_name_arch, read_manifest_list_arch⟩

/-- Witness for claim C5 at concrete inputs. -/
theorem claim_C5_witness :
    normalize_arch "aarch64" = "aarch64" ∧
    (∃ pkg n a, pySplit (stOnePkgOneEntry.queryNameArch pkg) ' ' = [n, a] ∧
      ({ size := 7, digest := "sha256:aaa",
         platform := { architecture := "amd64", os := "linux" } } :
        DockerManifest).platform.architecture = normalize_arch a) := by
  constructor
  · exact claim_C5_architecture_normalization.2.1 "aarch64" (by decide)
  · exact claim_C5_architecture_normalization.2.2.1 stOnePkgOneEntry "img" "1.0"
      [ { size := 7, digest := "sha256:aaa",
          platform := { architecture := "amd64", os := "linux" } } ]
      (by decide) _ (by decide)

/-- Claim C4 counterexample: the program never hashes what it serves.  In
`stWrongHashBlob` the blob-store file for hex `aa` has content hash
`sha256:bb`, yet the digest-addressed lookup for `sha256:aa` happily returns
it — the hash of the returned content does not equal the requested digest. -/
theorem claim_C4_counterexample :
    send_digest stWrongHashBlob "img" "sha256:aa" =
      Except.ok { path := BLOBS_BASE_PATH ++ "aa", media_type := none } ∧
    stWrongHashBlob.sha256OfPath (BLOBS_BASE_PATH ++ "aa") = "sha256:bb" ∧
    (("sha256:bb" == "sha256:aa") = false) := by
  exact ⟨by decide, by decide, by decide⟩

/-- Claim C4 (amended): `send_digest` performs no hash verification before
serving; the hash of the returned content equals the requested digest only
under the assumption that the backing store is content-addressed correctly
(blob-store files at the digest's hex path hash to the digest, and provider
files whose names end with the hex part hash to the digest). -/
theorem claim_C4_content_addressing_conditional (st : RegistryState)
    (name digest hex : String) (r : FileResponse)
    (hrep : pyReplace digest "sha256:" "" = hex)
    (hsw : pyStartswith digest "sha256:" = true)
    (hblob : st.pathExists (BLOBS_BASE_PATH ++ hex) = true →
      st.sha256OfPath (BLOBS_BASE_PATH ++ hex) = digest)
    (hfiles : ∀ pkg f, f ∈ st.queryFiles pkg → pyEndswith f hex = true →
      st.sha256OfPath f = digest)
    (hr : send_digest st name digest = Except.ok r) :
    st.sha256OfPath r.path = digest := by
  have hstrip : stripped_digest digest = hex := by
    unfold stripped_digest
    simp only [hsw, if_true, hrep]
  unfold send_digest at hr
  cases hc : config_blob_response st digest <;> rw [hc] at hr
  · rw [hstrip] at hr
    cases hpe : st.pathExists (BLOBS_BASE_PATH ++ hex) <;> rw [hpe] at hr
    · simp only [Bool.false_eq_true, if_false] at hr
      cases hr
    · simp only [if_true] at hr
      cases hr
      exact hblob hpe
  · rename_i fr
    injection hr with hfr
    subst hfr
    obtain ⟨pkg, hmem, hend, _⟩ := config_blob_response_inv st digest fr hc
    rw [hrep] at hend
    exact hfiles pkg fr.path hmem hend

/-- Witness for claim C4's amended theorem at a correctly content-addressed
concrete store. -/
theorem claim_C4_witness :
    stGoodHashBlob.sha256OfPath (BLOBS_BASE_PATH ++ "aa") = "sha256:aa" :=
  claim_C4_content_addressing_conditional stGoodHashBlob "img" "sha256:aa" "aa"
    { path := BLOBS_BASE_PATH ++ "aa", media_type := none }
    (by decide) (by decide) (fun _ => by decide)
    (by
      intro pkg f hf hend
      simp only [stGoodHashBlob, emptyState] at hf
      cases hf)
    (by decide)

/-- Claim C6: blob requests serve the unique `oci_config(digest)` provider's
suffix-matching file as the config blob when it exists, and otherwise fall
back to the well-known content-addressed blob-store path, failing 404 exactly
when that file is absent. -/
theorem claim_C6_blob_precedence (st : RegistryState) (name digest : String) :
    (∀ lines pkg fname,
      st.whatprovides ("oci_config(" ++ digest ++ ")") = some lines →
      lines.dedup = [pkg] →
      (st.queryFiles pkg).find?
        (fun f => pyEndswith f (pyReplace digest "sha256:" "")) = some fname →
      send_digest st name digest =
        Except.ok { path := fname, media_type := some OCI_IMAGE_CONFIG_MEDIA_TYPE }) ∧
    (config_blob_response st digest = none →
      (st.pathExists (BLOBS_BASE_PATH ++ stripped_digest digest) = true →
        send_digest st name digest =
          Except.ok { path := BLOBS_BASE_PATH ++ stripped_digest digest,
                      media_type := none }) ∧
      (st.pathExists (BLOBS_BASE_PATH ++ stripped_digest digest) = false →
        send_digest st name digest =
          Except.error (RegError.http 404
            ("Digest " ++ stripped_digest digest ++ " not found")))) := by
  constructor
  · intro lines pkg fname hq hd hf
    have hc := config_blob_response_eq_some st digest lines pkg fname hq hd hf
    simp only [send_digest, hc]
  · intro hc
    constructor
    · intro hpe
      simp only [send_digest, hc, hpe, if_true]
    · intro hpe
      simp only [send_digest, hc, hpe, Bool.false_eq_true, if_false]

/-- Witness for claim C6 covering both the config-provider branch and the
blob-store fallback branch. -/
theorem claim_C6_witness :
    send_digest stConfigPkg "n" "sha256:aa" =
      Except.ok { path := "/var/lib/config-aa",
                  media_type := some OCI_IMAGE_CONFIG_MEDIA_TYPE } ∧
    send_digest stWrongHashBlob "n" "sha256:aa" =
      Except.ok { path := BLOBS_BASE_PATH ++ stripped_digest "sha256:aa",
                  media_type := none } := by
  constructor
  · exact (claim_C6_blob_precedence stConfigPkg "n" "sha256:aa").1 ["pkgC"] "pkgC"
      "/var/lib/config-aa" (by decide) (by decide) (by decide)
  · exact (((claim_C6_blob_precedence stWrongHashBlob "n" "sha256:aa").2
      (by decide)).1 (by decide))

/-- Claim C8: listing tags fails 404 exactly when the set of packages
providing `oci_image(name)` is empty (including a failing provider query),
and otherwise returns the version strings collected from the
`oci_image(name) = <version>` provides entries of all providing packages. -/
theorem claim_C8_tag_listing (st : RegistryState) (name : String) :
    (st.whatprovides ("oci_image(" ++ name ++ ")") = none →
      send_tag_list st name =
        Except.error (RegError.http 404 ("Image " ++ name ++ " not found"))) ∧
    (∀ lines, st.whatprovides ("oci_image(" ++ name ++ ")") = some lines →
      (lines.dedup = [] →
        send_tag_list st name =
          Except.error (RegError.http 404 ("Image " ++ name ++ " not found"))) ∧
      (lines.dedup ≠ [] →
        send_tag_list st name =
          Except.ok { name := name,
                      tags := (lines.dedup.map fun pkg =>
                        tag_entries ("oci_image(" ++ name ++ ")")
                          (st.queryProvides pkg)).flatten })) := by
  constructor
  · intro hq
    simp only [send_tag_list, package_names_from_rpm, hq, except_bind_ok]
  · intro lines hq
    constructor
    · intro hd
      simp only [send_tag_list, package_names_from_rpm, hq, except_bind_ok, hd]
      simp
    · intro hd
      simp only [send_tag_list, package_names_from_rpm, hq, except_bind_ok]
      rw [if_neg hd]
      rfl

/-- Witness for claim C8 covering the failing-query branch and the
tag-collection branch. -/
theorem claim_C8_witness :
    send_tag_list emptyState "img" =
      Except.error (RegError.http 404 "Image img not found") ∧
    send_tag_list stTagList "img" =
      Except.ok { name := "img", tags := ["1.0", "latest"] } := by
  constructor
  · exact (claim_C8_tag_listing emptyState "img").1 (by decide)
  · have h := ((claim_C8_tag_listing stTagList "img").2 ["pkgA"] (by decide)).2
      (by decide)
    rw [h]
    decide
